import Mathlib

/-!
Verification of the `steam-auth` ticket tool (src/src/main.rs).

The program acquires a Steam web-API authentication ticket through a
callback registered with the Steam client, polls for it in a bounded loop,
and dispatches it either by POSTing to a URL (when `--url` and `--email`
are given) or by writing it as a hex line to a file.

This file gives a shallow embedding of the program: the callback closure,
the hex encoders of `post_ticket_to_url` and `write_ticket_to_file`, the
clap argument validation, the acquisition loop of `main`, and the dispatch
and exit behaviour of `main`, modelled as pure functions over an
environment recording the outcomes of the external effects (Steam client
init, login state, which notifications each `run_callbacks` pump delivers,
the HTTP response of the POST, and file-I/O success).
-/

namespace SteamAuth

/-! ## Hex encoding (post_ticket_to_url lines 176-178, write_ticket_to_file lines 198-200)

Rust: `ticket.iter().map(|byte| format!("{:02x}", byte)).collect::<String>()`.
Bytes are `u8`, so `{:02x}` always yields exactly two lowercase hex digits,
most-significant nibble first. -/

/-- One lowercase hexadecimal digit, as produced by `{:x}` for a nibble:
`0`-`9` for values below ten, `a`-`f` for ten to fifteen. -/
def hexDigit (n : Nat) : Char :=
  if n < 10 then Char.ofNat (48 + n) else Char.ofNat (87 + n)

/-- `format!("\x7b:02x\x7d", byte)` for a `u8` value: two lowercase hex digits,
most-significant nibble first. Meaningful on the byte domain (`b < 256`). -/
def formatByteHex (b : Nat) : String :=
  String.mk [hexDigit (b / 16), hexDigit (b % 16)]

/-- The hex-encoding expression inside `post_ticket_to_url` (main.rs 176-178):
`ticket.iter().map(|byte| format!("\x7b:02x\x7d", byte)).collect::<String>()`. -/
def hexEncodePost (ticket : List Nat) : String :=
  String.join (ticket.map formatByteHex)

/-- The hex-encoding expression inside `write_ticket_to_file` (main.rs 198-200):
`ticket.iter().map(|byte| format!("\x7b:02x\x7d", byte)).collect::<String>()`. -/
def hexEncodeFile (ticket : List Nat) : String :=
  String.join (ticket.map formatByteHex)

/-- Modelled from the spec: hex-decoding, the inverse direction of the
round-trip property ("hex-encoding B then decoding yields B exactly").
No decoder exists in the source; this is the standard reading of the
encoding: consume two hex characters per byte, most-significant nibble
first, rejecting odd-length input and non-hex characters. -/
def hexDigitVal (c : Char) : Option Nat :=
  if 48 ≤ c.toNat ∧ c.toNat ≤ 57 then some (c.toNat - 48)
  else if 97 ≤ c.toNat ∧ c.toNat ≤ 102 then some (c.toNat - 87)
  else none

/-- Modelled from the spec: decode a list of hex characters, two per byte. -/
def hexDecodeChars : List Char → Option (List Nat)
  | [] => some []
  | [_] => none
  | c₁ :: c₂ :: rest =>
    match hexDigitVal c₁, hexDigitVal c₂, hexDecodeChars rest with
    | some h, some l, some bs => some ((16 * h + l) :: bs)
    | _, _, _ => none

/-- Modelled from the spec: hex-decoding of a string. -/
def hexDecode (s : String) : Option (List Nat) :=
  hexDecodeChars s.toList

/-- A character is a lowercase hex digit. -/
def isLowerHexDigit (c : Char) : Bool :=
  (48 ≤ c.toNat && c.toNat ≤ 57) || (97 ≤ c.toNat && c.toNat ≤ 102)

/-! ## The notification handler (main.rs 90-102)

`client.register_callback(move |response: TicketForWebApiResponse| ...)`:
on `Ok(())` the closure assigns `Some(response.ticket.clone())` to the
shared `Mutex<Option<Vec<u8>>>` cell; on `Err(e)` it only reports. -/

/-- The payload delivered to the registered callback: `response.result` is
`Result<(), SteamError>` (error modelled as a string), `response.ticket`
the raw ticket bytes. -/
structure TicketForWebApiResponse where
  result : Except String Unit
  ticket : List Nat
  deriving Repr

/-- The body of the closure registered with `client.register_callback`
(main.rs 90-102), as a transformer of the shared ticket slot: on success
it assigns `Some(response.ticket)` to the slot (unconditionally); on
failure it reports the error and leaves the slot unchanged. -/
def ticketCallback (slot : Option (List Nat)) (response : TicketForWebApiResponse) :
    Option (List Nat) :=
  match response.result with
  | .ok _ => some response.ticket
  | .error _ => slot

/-- One `client.run_callbacks()` pump: every notification queued for this
pump is delivered to the registered handler in order. -/
def runCallbacksPump (slot : Option (List Nat))
    (notifications : List TicketForWebApiResponse) : Option (List Nat) :=
  notifications.foldl ticketCallback slot

/-- The ticket of the last success notification in a list, if any. -/
def lastSuccessTicket : List TicketForWebApiResponse → Option (List Nat)
  | [] => none
  | r :: rs =>
    match lastSuccessTicket rs with
    | some t => some t
    | none =>
      match r.result with
      | .ok _ => some r.ticket
      | .error _ => none

/-! ## CLI arguments (main.rs 9-67)

The `Args` derive-Parser struct. clap semantics of the attributes used:
* `url`: `group = "post_mode"`, `requires = "email"`;
* `email`: `group = "post_mode"`, `requires = "url"`;
* `output_file`: `default_value = "auth_ticket.txt"`,
  `conflicts_with = "post_mode"` — the conflict fires only when the flag is
  supplied on the command line (a defaulted value does not conflict);
* `exit` (bool flag): `conflicts_with = "post_mode"`.

A clap `ArgGroup` defaults to `multiple = false`: the members of a group
are mutually exclusive with each other. `url` and `email` are both
members of `post_mode`, so supplying `--url` together with `--email` is
itself a conflict error, in addition to each of them requiring the
other. -/

/-- The parsed argument struct `Args` (main.rs 15-67). -/
structure Args where
  url : Option String
  email : Option String
  output_file : String
  exit : Bool
  deriving DecidableEq, Repr

/-- The command line as supplied: `output_file = none` means the flag was
not given (so the default applies); `exit` records whether the flag was
present. -/
structure RawArgs where
  url : Option String
  email : Option String
  output_file : Option String
  exit : Bool
  deriving DecidableEq, Repr

/-- `Args::parse()` (main.rs 71): clap validation of the attributes on
`Args`, rejecting before `main` continues. The first check is the
exclusivity of the `post_mode` group (its default `multiple = false`
forbids `--url` together with `--email`); the next two are the mutual
`requires`. Together these three reject every command line that mentions
`--url` or `--email` at all, so the two `conflicts_with = "post_mode"`
checks that follow can no longer fire; they are kept to transcribe the
remaining attributes. On success the `output_file` default
`"auth_ticket.txt"` is applied. -/
def argsParse (raw : RawArgs) : Except String Args :=
  if raw.url.isSome && raw.email.isSome then
    .error "the argument cannot be used with one or more of the other specified arguments"
  else if raw.url.isSome && !raw.email.isSome then
    .error "the following required arguments were not provided: --email"
  else if raw.email.isSome && !raw.url.isSome then
    .error "the following required arguments were not provided: --url"
  else if raw.output_file.isSome && (raw.url.isSome || raw.email.isSome) then
    .error "the argument cannot be used with the post_mode group"
  else if raw.exit && (raw.url.isSome || raw.email.isSome) then
    .error "the argument cannot be used with the post_mode group"
  else
    .ok ⟨raw.url, raw.email, raw.output_file.getD "auth_ticket.txt", raw.exit⟩

/-! ## Environment: outcomes of the external effects

`main` interacts with the Steam client, an HTTP endpoint and the file
system. The environment fixes the outcome of each such interaction so the
control flow of `main` becomes a pure function. -/

/-- Outcomes of the external world: whether `Client::init()` succeeds,
whether `user.logged_on()` holds, which `TicketForWebApiResponse`
notifications the n-th `client.run_callbacks()` pump delivers to the
registered handler, the HTTP outcome of the POST (`none` = transport
failure, `some s` = response with status `s`), and whether
`File::create` and the `writeln!` each succeed. -/
structure Env where
  initOk : Bool
  loggedOn : Bool
  pumps : Nat → List TicketForWebApiResponse
  postResult : Option Nat
  fileCreateOk : Bool
  fileWriteOk : Bool

/-- The sleep passed to `tokio::time::sleep` on every unsuccessful
acquisition iteration and in the session tail (main.rs 149, 170):
`Duration::from_millis(100)`. -/
def pollDelayMillis : Nat := 100

/-- The attempt budget of the acquisition loop: `attempts < 100`
(main.rs 121). -/
def maxAttempts : Nat := 100

/-! ## The acquisition loop (main.rs 119-151)

```
let mut ticket_received = false;
let mut attempts = 0;
while !ticket_received && attempts < 100 \x7b
    client.run_callbacks();
    if let Some(ticket) = ticket_data.lock().unwrap().as_ref() \x7b
        ... dispatch ...; ticket_received = true;
    \x7d else \x7b
        attempts += 1;
        tokio::time::sleep(Duration::from_millis(100)).await;
    \x7d
\x7d
```
Modelled with fuel `100 - attempts`; the loop state records the ticket
slot, the attempt counter, how many pumps have run and how many sleeps
were performed. -/

/-- Mutable state of the acquisition loop: the ticket slot, the `attempts`
counter, how many `run_callbacks` pumps have executed, and the total
milliseconds spent suspended in `tokio::time::sleep`. -/
structure LoopState where
  slot : Option (List Nat)
  attempts : Nat
  pumpsDone : Nat
  sleptMillis : Nat
  deriving DecidableEq, Repr

/-- Result of the acquisition loop: either the slot was observed populated
(the iteration then dispatches and sets `ticket_received`), or the attempt
budget ran out. -/
inductive LoopOutcome where
  | gotTicket (ticket : List Nat) (st : LoopState)
  | timedOut (st : LoopState)
  deriving DecidableEq, Repr

/-- One-iteration-at-a-time model of the `while` loop: pump once, check
the slot; if populated, exit with the ticket (no attempt counted, no
sleep); otherwise count the attempt, sleep, and continue while fuel
remains. -/
def acqLoop (env : Env) : Nat → LoopState → LoopOutcome
  | 0, st => .timedOut st
  | fuel + 1, st =>
    match runCallbacksPump st.slot (env.pumps st.pumpsDone) with
    | some t => .gotTicket t ⟨some t, st.attempts, st.pumpsDone + 1, st.sleptMillis⟩
    | none =>
      acqLoop env fuel
        ⟨none, st.attempts + 1, st.pumpsDone + 1, st.sleptMillis + pollDelayMillis⟩

/-- The acquisition loop as entered by `main`: empty slot,
`attempts = 0`, budget 100. -/
def runAcquisition (env : Env) : LoopOutcome :=
  acqLoop env maxAttempts ⟨none, 0, 0, 0⟩

/-! ## Dispatch helpers (main.rs 175-205) -/

/-- The POST request built by `post_ticket_to_url`:
`client.post(url).query(&[("email", email), ("authTicket", &hex_ticket)]).send()`.
Only the URL and the two query parameters are set; the request carries no
body. -/
structure PostRequest where
  url : String
  email : String
  authTicket : String
  deriving DecidableEq, Repr

/-- `post_ticket_to_url` (main.rs 175-192): hex-encode the ticket, send a
single POST with query parameters `email` and `authTicket`, return `Ok(())`
iff the status is 200, otherwise an error (also on transport failure, via
`?` on `send()`). The first component records the request that was sent,
the second the function's `Result`. -/
def post_ticket_to_url (env : Env) (url email : String) (ticket : List Nat) :
    PostRequest × Except String Unit :=
  let hex_ticket := hexEncodePost ticket
  let request : PostRequest := ⟨url, email, hex_ticket⟩
  match env.postResult with
  | none => (request, .error "transport failure")
  | some status =>
    if status == 200 then (request, .ok ())
    else (request, .error ("Server returned status: " ++ toString status))

/-- A completed file write: the path given to `File::create` and the full
content written. -/
structure FileWrite where
  path : String
  content : String
  deriving DecidableEq, Repr

/-- Result of `write_ticket_to_file`: success carries the written file;
`createFailed` is `File::create` failing (no file), `writeFailed` is the
`writeln!` failing after the file was created (truncated). -/
inductive FileResult where
  | ok (fw : FileWrite)
  | createFailed
  | writeFailed
  deriving DecidableEq, Repr

/-- `write_ticket_to_file` (main.rs 194-205): create (or truncate) the
file, hex-encode the ticket, write the hex string followed by a newline
(`writeln!`). -/
def write_ticket_to_file (env : Env) (ticket : List Nat) (filename : String) :
    FileResult :=
  if env.fileCreateOk then
    let hex_ticket := hexEncodeFile ticket
    if env.fileWriteOk then .ok ⟨filename, hex_ticket ++ "\n"⟩
    else .writeFailed
  else .createFailed

/-! ## `main` (main.rs 69-172) -/

/-- How the process run ends.
* `normalReturn`: `return` out of `main` — the process exits with code 0.
* `exitSuccess`: `std::process::exit(0)`.
* `panicked`: `panic!` — abnormal termination, non-zero exit code.
* `sessionTail`: `main` reaches the keep-alive loop (main.rs 157-171),
  pumping callbacks every 100 ms until the spawned stdin thread sees a
  line (or EOF) and calls `std::process::exit(0)`. -/
inductive Outcome where
  | normalReturn
  | exitSuccess
  | panicked
  | sessionTail
  deriving DecidableEq, Repr

/-- The exit code the operating system observes for each outcome: 0 for a
normal return from `main` and for `std::process::exit(0)` (also the
eventual exit of the session tail, triggered by the stdin thread); a Rust
panic aborts the process with the non-zero code 101. -/
def processExitCode : Outcome → Nat
  | .normalReturn => 0
  | .exitSuccess => 0
  | .panicked => 101
  | .sessionTail => 0

/-- Everything observable about one run of `main`: how it ended, the POST
request issued (if any), whether `File::create` ran successfully, the
successful file write (if any), whether a file error was reported, whether
the acquisition timeout was reported, and the final loop state. -/
structure MainTrace where
  outcome : Outcome
  post : Option PostRequest := none
  fileCreated : Bool := false
  fileWritten : Option FileWrite := none
  fileError : Bool := false
  timeoutReported : Bool := false
  finalSlot : Option (List Nat) := none
  attempts : Nat := 0
  sleptMillis : Nat := 0
  deriving DecidableEq, Repr

/-- The body of `main` (main.rs 69-172) over an environment and parsed
arguments. In order: `Client::init()` (on failure, report and `return`);
register the callback; `user.logged_on()` check (on failure, report and
`return`); request the ticket; run the acquisition loop; on a ticket,
dispatch — POST when both `--url` and `--email` were given (`exit(0)` on
`Ok`, `panic!` on `Err`), otherwise write the file, reporting success or
failure either way; on timeout, report it; finally fall through to the
session tail. Note that `args.exit` is never consulted by the source. -/
def runMain (env : Env) (args : Args) : MainTrace :=
  if !env.initOk then
    { outcome := .normalReturn }
  else if !env.loggedOn then
    { outcome := .normalReturn }
  else
    match runAcquisition env with
    | .gotTicket ticket st =>
      match args.url, args.email with
      | some url, some email =>
        let pr := post_ticket_to_url env url email ticket
        match pr.2 with
        | .ok _ =>
          { outcome := .exitSuccess, post := some pr.1,
            finalSlot := st.slot, attempts := st.attempts, sleptMillis := st.sleptMillis }
        | .error _ =>
          { outcome := .panicked, post := some pr.1,
            finalSlot := st.slot, attempts := st.attempts, sleptMillis := st.sleptMillis }
      | _, _ =>
        match write_ticket_to_file env ticket args.output_file with
        | .ok fw =>
          { outcome := .sessionTail, fileCreated := true, fileWritten := some fw,
            finalSlot := st.slot, attempts := st.attempts, sleptMillis := st.sleptMillis }
        | .writeFailed =>
          { outcome := .sessionTail, fileCreated := true, fileError := true,
            finalSlot := st.slot, attempts := st.attempts, sleptMillis := st.sleptMillis }
        | .createFailed =>
          { outcome := .sessionTail, fileError := true,
            finalSlot := st.slot, attempts := st.attempts, sleptMillis := st.sleptMillis }
    | .timedOut st =>
      { outcome := .sessionTail, timeoutReported := true,
        finalSlot := st.slot, attempts := st.attempts, sleptMillis := st.sleptMillis }

/-- The whole process: `Args::parse()` first (main.rs 71); an invalid
command line makes clap terminate the process with a usage error before
`Client::init()`, the callback registration, or any network or file work. -/
def runProgram (env : Env) (raw : RawArgs) : Except String MainTrace :=
  match argsParse raw with
  | .error e => .error e
  | .ok args => .ok (runMain env args)

/-- Whether `Args::parse()` rejected the command line (clap prints a usage
error and terminates the process before anything else in `main` runs). -/
def rejectedByCli : Except String Args → Bool
  | .error _ => true
  | .ok _ => false

/-- Whether the whole process run ended in the CLI-rejection path, i.e.
without producing any run of `main` (no provider, network or file work). -/
def programRejected : Except String MainTrace → Bool
  | .error _ => true
  | .ok _ => false

/-! ## Concrete fixtures used to instantiate the theorems -/

/-- Default parsed arguments: no `--url`, no `--email`, default output
file, `--exit` absent. -/
def argsDefault : Args := ⟨none, none, "auth_ticket.txt", false⟩

/-- Parsed arguments selecting RemotePost dispatch. -/
def argsRemote : Args := ⟨some "http://x/verify", some "a@b.com", "auth_ticket.txt", false⟩

/-- An environment where `Client::init()` fails. -/
def envInitFail : Env := ⟨false, false, fun _ => [], none, false, false⟩

/-- An environment where the client initializes but the user is not
logged on. -/
def envNotLoggedIn : Env := ⟨true, false, fun _ => [], none, false, false⟩

/-- A healthy environment in which every pump delivers one success
notification carrying `ticket`, the POST (if any) gets HTTP status
`status` (`none` = transport failure), and file I/O succeeds. -/
def envTicket (ticket : List Nat) (status : Option Nat) : Env :=
  ⟨true, true, fun _ => [⟨.ok (), ticket⟩], status, true, true⟩

/-- A healthy environment in which every pump delivers one success
notification carrying `ticket`, but both `File::create` and `writeln!`
fail. -/
def envTicketFileFail (ticket : List Nat) : Env :=
  ⟨true, true, fun _ => [⟨.ok (), ticket⟩], none, false, false⟩

/-- A healthy environment in which the provider never delivers any
notification: the acquisition loop must time out. -/
def envNoTicket : Env := ⟨true, true, fun _ => [], none, true, true⟩

/-! ## Hex encoding lemmas -/

theorem hexDigitVal_hexDigit : ∀ n < 16, hexDigitVal (hexDigit n) = some n := by decide

theorem isLowerHexDigit_hexDigit : ∀ n < 16, isLowerHexDigit (hexDigit n) = true := by decide

/-- The characters of the hex encoding: two per byte, most-significant
nibble first. -/
theorem data_hexEncodePost (t : List Nat) :
    (hexEncodePost t).data
      = (t.map fun b => [hexDigit (b / 16), hexDigit (b % 16)]).flatten := by
  rw [hexEncodePost, String.data_join, List.map_map]
  rfl

theorem hexDecodeChars_encode (t : List Nat) (h : ∀ b ∈ t, b < 256) :
    hexDecodeChars ((t.map fun b => [hexDigit (b / 16), hexDigit (b % 16)]).flatten)
      = some t := by
  induction t with
  | nil => rfl
  | cons b t ih =>
    have hb : b < 256 := h b (List.mem_cons_self b t)
    have hdiv : b / 16 < 16 := Nat.div_lt_of_lt_mul (by omega)
    have hmod : b % 16 < 16 := Nat.mod_lt _ (by omega)
    have ht : ∀ x ∈ t, x < 256 := fun x hx => h x (List.mem_cons_of_mem b hx)
    simp only [List.map_cons, List.flatten_cons, List.cons_append, List.nil_append]
    rw [hexDecodeChars, hexDigitVal_hexDigit _ hdiv, hexDigitVal_hexDigit _ hmod, ih ht]
    show some ((16 * (b / 16) + b % 16) :: t) = some (b :: t)
    rw [Nat.div_add_mod]

theorem length_flatten_hexPairs (t : List Nat) :
    ((t.map fun b => [hexDigit (b / 16), hexDigit (b % 16)]).flatten).length
      = 2 * t.length := by
  induction t with
  | nil => rfl
  | cons b t ih =>
    simp only [List.map_cons, List.flatten_cons, List.length_append, ih, List.length_cons,
      List.length_nil]
    omega

theorem lower_flatten_hexPairs (t : List Nat) (h : ∀ b ∈ t, b < 256) :
    ∀ c ∈ (t.map fun b => [hexDigit (b / 16), hexDigit (b % 16)]).flatten,
      isLowerHexDigit c = true := by
  induction t with
  | nil => intro c hc; simp at hc
  | cons b t ih =>
    intro c hc
    have hb : b < 256 := h b (List.mem_cons_self b t)
    have ht : ∀ x ∈ t, x < 256 := fun x hx => h x (List.mem_cons_of_mem b hx)
    simp only [List.map_cons, List.flatten_cons, List.cons_append, List.nil_append,
      List.mem_cons] at hc
    rcases hc with rfl | rfl | hc
    · exact isLowerHexDigit_hexDigit _ (Nat.div_lt_of_lt_mul (by omega))
    · exact isLowerHexDigit_hexDigit _ (Nat.mod_lt _ (by omega))
    · exact ih ht c hc

theorem hexDecode_hexEncodePost (t : List Nat) (h : ∀ b ∈ t, b < 256) :
    hexDecode (hexEncodePost t) = some t := by
  rw [hexDecode]
  show hexDecodeChars (hexEncodePost t).data = some t
  rw [data_hexEncodePost, hexDecodeChars_encode t h]

/-! ## Notification handler lemmas -/

/-- Delivering a list of notifications to the handler leaves the slot
holding the ticket of the last success, or the prior value if none
succeeded. -/
theorem runCallbacksPump_eq_lastSuccess (init : Option (List Nat))
    (rs : List TicketForWebApiResponse) :
    runCallbacksPump init rs = (lastSuccessTicket rs).or init := by
  induction rs generalizing init with
  | nil => rfl
  | cons r rs ih =>
    show runCallbacksPump (ticketCallback init r) rs = (lastSuccessTicket (r :: rs)).or init
    rw [ih]
    cases hlast : lastSuccessTicket rs with
    | some t => simp [lastSuccessTicket, hlast, Option.or]
    | none =>
      cases hr : r.result with
      | ok u => simp [lastSuccessTicket, hlast, hr, ticketCallback, Option.or]
      | error e => simp [lastSuccessTicket, hlast, hr, ticketCallback, Option.or]

/-! ## Acquisition loop lemmas -/

/-- Invariant of the polling loop: starting from a state whose bookkeeping
is consistent (`sleptMillis = attempts * 100`, one pump per past attempt)
and whose remaining fuel complements `attempts` to the budget of 100, the
loop either observes a populated slot — in which case that iteration
pumped once more but neither counted an attempt nor slept — or times out
with exactly 100 counted attempts, 100 pumps and 100 sleeps. -/
theorem acqLoop_spec (env : Env) :
    ∀ (fuel : Nat) (st : LoopState),
      st.sleptMillis = st.attempts * pollDelayMillis →
      st.pumpsDone = st.attempts →
      st.attempts + fuel = maxAttempts →
      (∀ t st', acqLoop env fuel st = .gotTicket t st' →
          st'.attempts ≤ maxAttempts ∧
          st'.sleptMillis = st'.attempts * pollDelayMillis ∧
          st'.pumpsDone = st'.attempts + 1 ∧ st'.slot = some t) ∧
      (∀ st', acqLoop env fuel st = .timedOut st' →
          st'.attempts = maxAttempts ∧
          st'.sleptMillis = maxAttempts * pollDelayMillis ∧
          st'.pumpsDone = maxAttempts) := by
  intro fuel
  induction fuel with
  | zero =>
    intro st h1 h2 h3
    constructor
    · intro t st' hgot
      simp [acqLoop] at hgot
    · intro st' htm
      simp only [acqLoop] at htm
      cases htm
      refine ⟨by omega, ?_, by omega⟩
      rw [h1]
      have hA : st.attempts = maxAttempts := by omega
      rw [hA]
  | succ fuel ih =>
    intro st h1 h2 h3
    cases hp : runCallbacksPump st.slot (env.pumps st.pumpsDone) with
    | some t0 =>
      constructor
      · intro t st' hgot
        rw [acqLoop, hp] at hgot
        cases hgot
        refine ⟨?_, h1, ?_, rfl⟩ <;> dsimp only <;> omega
      · intro st' htm
        rw [acqLoop, hp] at htm
        cases htm
    | none =>
      have hrec := ih ⟨none, st.attempts + 1, st.pumpsDone + 1,
          st.sleptMillis + pollDelayMillis⟩
        (by simp only []; rw [h1, Nat.succ_mul])
        (by simp only []; omega)
        (by simp only []; omega)
      constructor
      · intro t st' hgot
        rw [acqLoop, hp] at hgot
        exact hrec.1 t st' hgot
      · intro st' htm
        rw [acqLoop, hp] at htm
        exact hrec.2 st' htm

/-! ## Claim theorems -/

/-- C1, counterexample: the claim says a second success notification must
not overwrite an already-populated Ticket Slot and that only the first
written ticket is observed. But the handler (main.rs 96) assigns
`Some(response.ticket)` unconditionally: delivering a success with ticket
`[1]` and then a success with ticket `[2]` leaves the slot holding
`some [2]`, not the first value `some [1]` — the second success did
overwrite the populated slot. -/
theorem C1_counterexample :
    runCallbacksPump none [⟨.ok (), [1]⟩] = some [1] ∧
    runCallbacksPump none [⟨.ok (), [1]⟩, ⟨.ok (), [2]⟩] = some [2] ∧
    (some [2] : Option (List Nat)) ≠ some [1] :=
  ⟨rfl, rfl, by decide⟩

/-- C1, amended: the handler writes the Ticket Slot on every success
notification, unconditionally overwriting any previously stored ticket;
failures leave the slot untouched. Hence after any sequence of
notifications the slot holds the ticket of the most recent success, or
keeps its prior value when none succeeded — the last written ticket, not
the first, is the one observed. -/
theorem C1_slot_last_write_wins (init : Option (List Nat))
    (rs : List TicketForWebApiResponse) :
    runCallbacksPump init rs = (lastSuccessTicket rs).or init :=
  runCallbacksPump_eq_lastSuccess init rs

/-- C6: for every byte sequence `B` (all elements in the `u8` range,
non-empty as the claim states), hex-encoding with either encoder and then
hex-decoding yields `B` exactly; the encoding produces exactly two
characters per byte, all of them lowercase hex digits (most-significant
nibble first, which is what the decoder reads back); and the single byte
`0x0a` encodes to `"0a"`, preserving the leading zero. The encoders are
plain functions, hence deterministic. -/
theorem C6_hex_roundtrip (B : List Nat) (hB : ∀ b ∈ B, b < 256) (_hne : B ≠ []) :
    hexDecode (hexEncodePost B) = some B ∧
    hexDecode (hexEncodeFile B) = some B ∧
    (hexEncodePost B).length = 2 * B.length ∧
    (∀ c ∈ (hexEncodeFile B).data, isLowerHexDigit c = true) ∧
    hexEncodeFile [10] = "0a" := by
  refine ⟨hexDecode_hexEncodePost B hB, hexDecode_hexEncodePost B hB, ?_, ?_, by decide⟩
  · show (hexEncodePost B).data.length = 2 * B.length
    rw [data_hexEncodePost, length_flatten_hexPairs]
  · intro c hc
    rw [show hexEncodeFile B = hexEncodePost B from rfl, data_hexEncodePost] at hc
    exact lower_flatten_hexPairs B hB c hc

/-- Witness for C6 at the concrete non-empty byte sequence
`[0xde, 0xad, 0xbe, 0xef]`. -/
theorem C6_hex_roundtrip_witness :
    ((∀ b ∈ ([222, 173, 190, 239] : List Nat), b < 256) ∧
      ([222, 173, 190, 239] : List Nat) ≠ []) ∧
    hexDecode (hexEncodePost [222, 173, 190, 239]) = some [222, 173, 190, 239] :=
  ⟨⟨by decide, by decide⟩,
    (C6_hex_roundtrip [222, 173, 190, 239] (by decide) (by decide)).1⟩

/-- C10: the hex-encoding expression duplicated inside `post_ticket_to_url`
(main.rs 176-178) and inside `write_ticket_to_file` (main.rs 198-200) is
the same function: both serialize any given ticket identically. -/
theorem C10_hex_encoders_agree (ticket : List Nat) :
    hexEncodePost ticket = hexEncodeFile ticket :=
  rfl

/-- C2, code bug: `main` never reads `args.exit` — the whole run of the
program is independent of the flag's value (first conjunct), and in a run
where the LocalFile dispatch succeeds with the flag set, the process still
enters the Session Tail instead of terminating right after the write
(remaining conjuncts), contradicting the flag's own documentation
("Exit immediately after writing ticket to file", main.rs 56-66) and the
spec. -/
theorem C2_exit_flag_ignored :
    (∀ (env : Env) (u e : Option String) (o : String) (x₁ x₂ : Bool),
        runMain env ⟨u, e, o, x₁⟩ = runMain env ⟨u, e, o, x₂⟩) ∧
    (runMain (envTicket [1] none) ⟨none, none, "out.txt", true⟩).outcome
      = .sessionTail ∧
    (runMain (envTicket [1] none) ⟨none, none, "out.txt", true⟩).fileWritten
      = some ⟨"out.txt", "01\n"⟩ :=
  ⟨fun _ _ _ _ _ _ => rfl, rfl, rfl⟩

/-- C3, counterexample: the claim says a provider (Steam client)
initialization failure terminates the process abnormally with a non-zero
exit code. In the source (main.rs 75-81) this failure path reports the
error and then plainly `return`s out of `main`, so the process exits
normally with code 0. -/
theorem C3_counterexample :
    (runMain envInitFail argsDefault).outcome = Outcome.normalReturn ∧
    processExitCode (runMain envInitFail argsDefault).outcome = 0 :=
  ⟨rfl, rfl⟩

/-- C3, amended: the process exits 0 on the explicit success paths; a POST
failure terminates abnormally (panic, non-zero exit code) with no file
fallback; provider initialization failure and the user not being logged in
cause an early `return` — exit code 0, not non-zero — after reporting the
error, and in those two cases no POST is issued and no output file is
created or written. -/
theorem C3_exit_codes (env : Env) (args : Args) :
    (env.initOk = false →
        runMain env args = { outcome := .normalReturn } ∧
        processExitCode (runMain env args).outcome = 0) ∧
    (env.loggedOn = false →
        runMain env args = { outcome := .normalReturn } ∧
        processExitCode (runMain env args).outcome = 0) ∧
    (∀ u e t st, args.url = some u → args.email = some e →
        env.initOk = true → env.loggedOn = true →
        runAcquisition env = .gotTicket t st →
        env.postResult ≠ some 200 →
        (runMain env args).outcome = .panicked ∧
        processExitCode (runMain env args).outcome ≠ 0 ∧
        (runMain env args).fileCreated = false ∧
        (runMain env args).fileWritten = none) := by
  refine ⟨?_, ?_, ?_⟩
  · intro h
    constructor <;> simp [runMain, h, processExitCode]
  · intro h
    by_cases hI : env.initOk
    · constructor <;> simp [runMain, hI, h, processExitCode]
    · constructor <;> simp [runMain, hI, processExitCode]
  · intro u e t st hu he hI hL hAcq hpost
    cases hr : env.postResult with
    | none =>
      simp [runMain, hI, hL, hAcq, hu, he, post_ticket_to_url, hr, processExitCode]
    | some s =>
      have hs : s ≠ 200 := fun hcontra => hpost (by rw [hr, hcontra])
      simp [runMain, hI, hL, hAcq, hu, he, post_ticket_to_url, hr, hs, processExitCode]

/-- Witness for C3 (amended) on concrete runs: an init-failure run, a
not-logged-in run, and a RemotePost run whose POST gets HTTP status 500. -/
theorem C3_exit_codes_witness :
    runMain envInitFail argsDefault = { outcome := Outcome.normalReturn } ∧
    runMain envNotLoggedIn argsDefault = { outcome := Outcome.normalReturn } ∧
    (runMain (envTicket [1, 2] (some 500)) argsRemote).outcome = Outcome.panicked :=
  ⟨((C3_exit_codes envInitFail argsDefault).1 rfl).1,
    ((C3_exit_codes envNotLoggedIn argsDefault).2.1 rfl).1,
    ((C3_exit_codes (envTicket [1, 2] (some 500)) argsRemote).2.2 "http://x/verify"
      "a@b.com" [1, 2] ⟨some [1, 2], 0, 1, 0⟩ rfl rfl rfl rfl rfl (by decide)).1⟩

/-- C4: in a RemotePost run (both `--url` and `--email` supplied) where
the acquisition loop obtains a ticket, `main` issues exactly one POST, to
the given URL with query parameters `email` and `authTicket` (the hex
encoding of the ticket) and nothing else (the request record has no body);
HTTP status 200 makes the process exit immediately with code 0 without
entering the Session Tail; any other status, or a transport failure,
panics (abnormal, non-zero termination), and in no case does the run fall
back to creating or writing a file. -/
theorem C4_remote_post (env : Env) (args : Args) (u e : String) (t : List Nat)
    (st : LoopState)
    (hI : env.initOk = true) (hL : env.loggedOn = true)
    (hu : args.url = some u) (he : args.email = some e)
    (hAcq : runAcquisition env = .gotTicket t st) :
    (runMain env args).post = some ⟨u, e, hexEncodePost t⟩ ∧
    (env.postResult = some 200 →
        (runMain env args).outcome = .exitSuccess ∧
        (runMain env args).outcome ≠ .sessionTail ∧
        processExitCode (runMain env args).outcome = 0) ∧
    (env.postResult ≠ some 200 →
        (runMain env args).outcome = .panicked ∧
        processExitCode (runMain env args).outcome ≠ 0) ∧
    (runMain env args).fileCreated = false ∧
    (runMain env args).fileWritten = none ∧
    (runMain env args).fileError = false := by
  cases hr : env.postResult with
  | none =>
    simp [runMain, hI, hL, hAcq, hu, he, post_ticket_to_url, hr, processExitCode]
  | some s =>
    by_cases hs : s = 200
    · subst hs
      simp [runMain, hI, hL, hAcq, hu, he, post_ticket_to_url, hr, processExitCode]
    · simp [runMain, hI, hL, hAcq, hu, he, post_ticket_to_url, hr, hs, processExitCode]

/-- Witness for C4 on a concrete run: ticket bytes `[0x01, 0x02]`,
`--url http://x/verify --email a@b.com`, server answers 200. -/
theorem C4_remote_post_witness :
    (runMain (envTicket [1, 2] (some 200)) argsRemote).post
      = some ⟨"http://x/verify", "a@b.com", "0102"⟩ ∧
    (runMain (envTicket [1, 2] (some 200)) argsRemote).outcome = Outcome.exitSuccess ∧
    (runMain (envTicket [1, 2] (some 200)) argsRemote).fileWritten = none := by
  have h := C4_remote_post (envTicket [1, 2] (some 200)) argsRemote "http://x/verify"
    "a@b.com" [1, 2] ⟨some [1, 2], 0, 1, 0⟩ rfl rfl rfl rfl rfl
  exact ⟨h.1.trans (by decide), (h.2.1 rfl).1, h.2.2.2.2.1⟩

/-- C5: the acquisition loop always terminates, with at most 100 counted
attempts. When the slot is observed populated the loop exits on that very
iteration: it pumped once more than the attempts it counted, counted no
attempt for that iteration and did not sleep for it (total sleep time
stays `attempts * 100` milliseconds — one 100 ms suspension per failed
check, never a busy spin). When the budget is exhausted the loop has
counted exactly 100 attempts, pumped 100 times and slept 100 times; the
timeout is then reported, `main` does not panic or throw, no POST is
issued and no file is touched — dispatch is skipped entirely and the run
proceeds to the Session Tail. -/
theorem C5_acquisition_bounded (env : Env) (args : Args) :
    (∀ t st, runAcquisition env = .gotTicket t st →
        st.attempts ≤ maxAttempts ∧
        st.sleptMillis = st.attempts * pollDelayMillis ∧
        st.pumpsDone = st.attempts + 1 ∧
        st.slot = some t) ∧
    (∀ st, runAcquisition env = .timedOut st →
        st.attempts = maxAttempts ∧
        st.sleptMillis = maxAttempts * pollDelayMillis ∧
        st.pumpsDone = maxAttempts) ∧
    (∀ st, runAcquisition env = .timedOut st →
        env.initOk = true → env.loggedOn = true →
        (runMain env args).timeoutReported = true ∧
        (runMain env args).outcome = .sessionTail ∧
        (runMain env args).outcome ≠ .panicked ∧
        (runMain env args).post = none ∧
        (runMain env args).fileCreated = false ∧
        (runMain env args).fileWritten = none) := by
  have h := acqLoop_spec env maxAttempts ⟨none, 0, 0, 0⟩ (by decide) rfl rfl
  refine ⟨h.1, h.2, ?_⟩
  intro st hAcq hI hL
  simp [runMain, hI, hL, hAcq]

set_option maxRecDepth 4000 in
/-- Witness for C5 on a concrete run where the provider never delivers a
notification: the loop times out after exactly 100 attempts, 100 pumps and
10000 ms of accumulated sleep, and `main` reports the timeout without
dispatching. -/
theorem C5_acquisition_bounded_witness :
    ((⟨none, 100, 100, 10000⟩ : LoopState).attempts = maxAttempts ∧
      (⟨none, 100, 100, 10000⟩ : LoopState).sleptMillis
        = maxAttempts * pollDelayMillis ∧
      (⟨none, 100, 100, 10000⟩ : LoopState).pumpsDone = maxAttempts) ∧
    (runMain envNoTicket argsDefault).timeoutReported = true ∧
    (runMain envNoTicket argsDefault).post = none := by
  have h := C5_acquisition_bounded envNoTicket argsDefault
  have hAcq : runAcquisition envNoTicket = .timedOut ⟨none, 100, 100, 10000⟩ := rfl
  have h3 := h.2.2 ⟨none, 100, 100, 10000⟩ hAcq rfl rfl
  exact ⟨h.2.1 ⟨none, 100, 100, 10000⟩ hAcq, h3.1, h3.2.2.2.1⟩

/-- C7: a successful LocalFile dispatch creates (or truncates) the file at
the configured path and writes exactly one line — the lowercase hex
encoding of the ticket bytes followed by a single newline, nothing else;
for the ticket bytes `[0xDE, 0xAD, 0xBE, 0xEF]` the file content is
exactly `"deadbeef\n"`. The last conjunct lifts this to a full run of
`main` dispatching to the default output file. -/
theorem C7_file_content (env : Env) (args : Args) (t : List Nat) (st : LoopState)
    (f : String)
    (hc : env.fileCreateOk = true) (hw : env.fileWriteOk = true) :
    write_ticket_to_file env t f = .ok ⟨f, hexEncodeFile t ++ "\n"⟩ ∧
    write_ticket_to_file env [222, 173, 190, 239] "out.txt"
      = .ok ⟨"out.txt", "deadbeef\n"⟩ ∧
    (args.url = none → env.initOk = true → env.loggedOn = true →
        runAcquisition env = .gotTicket t st →
        (runMain env args).fileCreated = true ∧
        (runMain env args).fileWritten
          = some ⟨args.output_file, hexEncodeFile t ++ "\n"⟩) := by
  refine ⟨?_, ?_, ?_⟩
  · simp [write_ticket_to_file, hc, hw]
  · have hhex : hexEncodeFile [222, 173, 190, 239] = "deadbeef" := by decide
    simp [write_ticket_to_file, hc, hw, hhex]
  · intro hu hI hL hAcq
    simp [runMain, hI, hL, hAcq, hu, write_ticket_to_file, hc, hw]

/-- Witness for C7 on a concrete run: ticket `[0xDE, 0xAD, 0xBE, 0xEF]`
written to the default output file. -/
theorem C7_file_content_witness :
    write_ticket_to_file (envTicket [222, 173, 190, 239] none)
        [222, 173, 190, 239] "out.txt" = .ok ⟨"out.txt", "deadbeef\n"⟩ ∧
    (runMain (envTicket [222, 173, 190, 239] none) argsDefault).fileWritten
      = some ⟨"auth_ticket.txt", "deadbeef\n"⟩ := by
  have h := C7_file_content (envTicket [222, 173, 190, 239] none) argsDefault
    [222, 173, 190, 239] ⟨some [222, 173, 190, 239], 0, 1, 0⟩ "out.txt" rfl rfl
  exact ⟨h.2.1, (h.2.2 rfl rfl rfl rfl).2.trans (by decide)⟩

/-- C8: an I/O failure while creating or writing the output file is
non-fatal: the run reports the file error, does not panic, ends in the
Session Tail (eventual exit code 0), and no complete file write is
recorded. By contrast (last conjunct), with the same environment a
RemotePost dispatch whose POST does not return 200 panics. -/
theorem C8_file_error_nonfatal (env : Env) (args : Args) (t : List Nat)
    (st : LoopState)
    (hI : env.initOk = true) (hL : env.loggedOn = true)
    (hu : args.url = none)
    (hAcq : runAcquisition env = .gotTicket t st)
    (hio : env.fileCreateOk = false ∨ env.fileWriteOk = false) :
    (runMain env args).outcome = .sessionTail ∧
    (runMain env args).outcome ≠ .panicked ∧
    processExitCode (runMain env args).outcome = 0 ∧
    (runMain env args).fileError = true ∧
    (runMain env args).fileWritten = none ∧
    (∀ args' u e, args'.url = some u → args'.email = some e →
        env.postResult ≠ some 200 →
        (runMain env args').outcome = .panicked) := by
  have hmain : (runMain env args).outcome = .sessionTail ∧
      (runMain env args).outcome ≠ .panicked ∧
      processExitCode (runMain env args).outcome = 0 ∧
      (runMain env args).fileError = true ∧
      (runMain env args).fileWritten = none := by
    cases hio with
    | inl hc =>
      simp [runMain, hI, hL, hAcq, hu, write_ticket_to_file, hc, processExitCode]
    | inr hw =>
      cases hc : env.fileCreateOk with
      | false =>
        simp [runMain, hI, hL, hAcq, hu, write_ticket_to_file, hc, processExitCode]
      | true =>
        simp [runMain, hI, hL, hAcq, hu, write_ticket_to_file, hc, hw, processExitCode]
  refine ⟨hmain.1, hmain.2.1, hmain.2.2.1, hmain.2.2.2.1, hmain.2.2.2.2, ?_⟩
  intro args' u e hu' he' hpost
  cases hr : env.postResult with
  | none =>
    simp [runMain, hI, hL, hAcq, hu', he', post_ticket_to_url, hr]
  | some s =>
    have hs : s ≠ 200 := fun hcontra => hpost (by rw [hr, hcontra])
    simp [runMain, hI, hL, hAcq, hu', he', post_ticket_to_url, hr, hs]

/-- Witness for C8 on a concrete run where both file operations fail. -/
theorem C8_file_error_nonfatal_witness :
    (runMain (envTicketFileFail [1]) argsDefault).outcome = Outcome.sessionTail ∧
    (runMain (envTicketFileFail [1]) argsDefault).fileError = true := by
  have h := C8_file_error_nonfatal (envTicketFileFail [1]) argsDefault [1]
    ⟨some [1], 0, 1, 0⟩ rfl rfl rfl rfl (Or.inl rfl)
  exact ⟨h.1, h.2.2.2.1⟩

/-- C9: the CLI layer rejects before any provider or network work:
supplying `--output-file` together with both `--url` and `--email` makes
`Args::parse()` fail, and supplying `--url` without `--email` (or
`--email` without `--url`) does too; in every such case `runProgram` exits
in the rejection path — for an arbitrary environment, showing that neither
`Client::init()` nor any network or file effect is ever consulted. The
last conjunct records that the first rejection does not even need
`--output-file`: `--url` and `--email` are members of the same clap group,
whose default exclusivity rejects them whenever they are supplied
together (so RemotePost mode is unreachable from the real command line). -/
theorem C9_cli_rejection (env : Env) (raw : RawArgs) :
    (raw.url.isSome = true → raw.email.isSome = true →
        raw.output_file.isSome = true →
        rejectedByCli (argsParse raw) = true ∧
        programRejected (runProgram env raw) = true) ∧
    (raw.url.isSome = true → raw.email.isSome = false →
        rejectedByCli (argsParse raw) = true ∧
        programRejected (runProgram env raw) = true) ∧
    (raw.email.isSome = true → raw.url.isSome = false →
        rejectedByCli (argsParse raw) = true ∧
        programRejected (runProgram env raw) = true) ∧
    (raw.url.isSome = true → raw.email.isSome = true →
        rejectedByCli (argsParse raw) = true ∧
        programRejected (runProgram env raw) = true) := by
  have hboth : raw.url.isSome = true → raw.email.isSome = true →
      rejectedByCli (argsParse raw) = true ∧
      programRejected (runProgram env raw) = true := by
    intro h₁ h₂
    have hp : argsParse raw = .error
        "the argument cannot be used with one or more of the other specified arguments" := by
      simp [argsParse, h₁, h₂]
    exact ⟨by rw [hp]; rfl, by rw [runProgram, hp]; rfl⟩
  refine ⟨fun h₁ h₂ _ => hboth h₁ h₂, ?_, ?_, hboth⟩
  · intro h₁ h₂
    have hp : argsParse raw
        = .error "the following required arguments were not provided: --email" := by
      simp [argsParse, h₁, h₂]
    exact ⟨by rw [hp]; rfl, by rw [runProgram, hp]; rfl⟩
  · intro h₁ h₂
    have hp : argsParse raw
        = .error "the following required arguments were not provided: --url" := by
      simp [argsParse, h₁, h₂]
    exact ⟨by rw [hp]; rfl, by rw [runProgram, hp]; rfl⟩

/-- Witness for C9 on concrete command lines: `-u u -e e -o o`,
`-u u` alone, `-e e` alone, and `-u u -e e` without `-o` are all
rejected. -/
theorem C9_cli_rejection_witness :
    rejectedByCli (argsParse ⟨some "u", some "e", some "o", false⟩) = true ∧
    programRejected (runProgram envNoTicket ⟨some "u", some "e", some "o", false⟩)
      = true ∧
    rejectedByCli (argsParse ⟨some "u", none, none, false⟩) = true ∧
    rejectedByCli (argsParse ⟨none, some "e", none, false⟩) = true ∧
    rejectedByCli (argsParse ⟨some "u", some "e", none, false⟩) = true := by
  have h₁ := (C9_cli_rejection envNoTicket ⟨some "u", some "e", some "o", false⟩).1
    rfl rfl rfl
  have h₂ := (C9_cli_rejection envNoTicket ⟨some "u", none, none, false⟩).2.1 rfl rfl
  have h₃ := (C9_cli_rejection envNoTicket ⟨none, some "e", none, false⟩).2.2.1 rfl rfl
  have h₄ := (C9_cli_rejection envNoTicket ⟨some "u", some "e", none, false⟩).2.2.2
    rfl rfl
  exact ⟨h₁.1, h₁.2, h₂.1, h₃.1, h₄.1⟩

end SteamAuth
